import Mathlib

/-!
Shallow embedding of the Wear-OS hiking-app simulator (src/src/App.tsx).

Numbers: the TypeScript source computes with IEEE doubles; the embedding
uses exact arithmetic, with `ℚ` for coordinates, altitudes, speeds and
accuracies, and `ℝ` for the haversine distance and quantities derived
from it (the formula uses transcendental functions).  JavaScript `null`
for an optional number becomes `Option ℚ`, and the JavaScript truthiness
test `if (x)` on a `number | null` becomes `truthy` below (`null` and
`0` are falsy; `NaN`, which is also falsy, has no counterpart in `ℚ`).
-/

namespace HikingApp

/-- JavaScript truthiness of a `number | null` value: `null` and `0` are
falsy, every other number is truthy. -/
def truthy : Option ℚ → Bool
  | none => false
  | some v => v ≠ 0

/-- Value of an optional altitude, used only under a `truthy` guard. -/
def altVal (a : Option ℚ) : ℚ := a.getD 0

/-! ### Number and date printing (models of JavaScript builtins)

The exporter interpolates numbers and `Date.toISOString()` into the GPX
text.  These are models of the JavaScript builtins, not repository code:
`natStr`/`intStr` print integers exactly as JavaScript does; `numStr`
prints a non-integer rational as `num/den` (JavaScript would print a
decimal expansion — the claims checked here depend only on the charset,
never on the digits of a non-integer).  `toISOString` implements the
ECMAScript `YYYY-MM-DDTHH:mm:ss.sssZ` layout via the standard
civil-from-days calendar algorithm. -/

/-- The decimal digit character for `d < 10`. -/
def digitChar (d : ℕ) : Char := Char.ofNat (48 + d)

/-- Decimal digits of a positive natural number, most significant first
(empty for `0`). -/
def natChars : ℕ → List Char
  | 0 => []
  | n + 1 => natChars ((n + 1) / 10) ++ [digitChar ((n + 1) % 10)]
decreasing_by exact Nat.div_lt_self (Nat.succ_pos n) (by norm_num)

/-- Decimal notation of a natural number. -/
def natStr (n : ℕ) : String := if n = 0 then "0" else String.mk (natChars n)

/-- Decimal notation of an integer. -/
def intStr (i : ℤ) : String := if i < 0 then "-" ++ natStr i.natAbs else natStr i.natAbs

/-- Printing of a rational: integers exactly as JavaScript prints an
integral double, other values as `num/den`. -/
def numStr (q : ℚ) : String :=
  if q.den = 1 then intStr q.num else intStr q.num ++ "/" ++ natStr q.den

/-- Left-pad with `'0'` to the given length (model of `padStart(len, "0")`). -/
def padZero (len : ℕ) (s : String) : String :=
  String.mk (List.replicate (len - s.length) '0') ++ s

/-- Civil date (year, month, day) of a day count relative to 1970-01-01,
by the standard era decomposition of the proleptic Gregorian calendar. -/
def civilFromDays (z : ℤ) : ℤ × ℤ × ℤ :=
  let z := z + 719468
  let era := z.fdiv 146097
  let doe := z - era * 146097
  let yoe := (doe - doe / 1460 + doe / 36524 - doe / 146096) / 365
  let y := yoe + era * 400
  let doy := doe - (365 * yoe + yoe / 4 - yoe / 100)
  let mp := (5 * doy + 2) / 153
  let d := doy - (153 * mp + 2) / 5 + 1
  let m := mp + (if mp < 10 then 3 else -9)
  (y + (if m ≤ 2 then 1 else 0), m, d)

/-- Model of `new Date(ms).toISOString()` for an epoch-millisecond
timestamp: `YYYY-MM-DDTHH:mm:ss.sssZ` (the six-digit expanded-year form
for dates outside years 0–9999 is not modelled). -/
def toISOString (t : ℤ) : String :=
  let msOfDay := (t.emod 86400000).toNat
  let day := (t - t.emod 86400000).fdiv 86400000
  let c := civilFromDays day
  padZero 4 (intStr c.1) ++ "-" ++ padZero 2 (intStr c.2.1) ++ "-" ++
    padZero 2 (intStr c.2.2) ++ "T" ++
    padZero 2 (natStr (msOfDay / 3600000)) ++ ":" ++
    padZero 2 (natStr (msOfDay / 60000 % 60)) ++ ":" ++
    padZero 2 (natStr (msOfDay / 1000 % 60)) ++ "." ++
    padZero 3 (natStr (msOfDay % 1000)) ++ "Z"

/-! ### Data model -/

/-- One GPS fix as stored by the app (interface `Point` in App.tsx). -/
structure Point where
  lat : ℚ
  lng : ℚ
  alt : Option ℚ
  timestamp : ℤ
  speed : Option ℚ
  deriving DecidableEq, Repr

/-- A `GeolocationPosition` delivered by the watch callback: the fields
of `position.coords` that the app reads, plus `position.timestamp`. -/
structure GeoPosition where
  latitude : ℚ
  longitude : ℚ
  altitude : Option ℚ
  speed : Option ℚ
  accuracy : ℚ
  timestamp : ℤ
  deriving DecidableEq, Repr

/-! ### Track exporter (`generateGPX`) -/

/-- Fixed text emitted before the per-point blocks. -/
def gpxHeader : String :=
  "<?xml version=\"1.0\" encoding=\"UTF-8\"?>\n" ++
  "<gpx version=\"1.1\" creator=\"Web Wear OS Hiking App\">\n" ++
  "  <trk>\n" ++
  "    <name>Hiking Session</name>\n" ++
  "    <trkseg>\n"

/-- Fixed text emitted after the per-point blocks. -/
def gpxFooter : String := "    </trkseg>\n  </trk>\n</gpx>"

/-- The text the `points.forEach` body appends for one point. -/
def trkptStr (p : Point) : String :=
  "      <trkpt lat=\"" ++ numStr p.lat ++ "\" lon=\"" ++ numStr p.lng ++ "\">\n" ++
  (if truthy p.alt then "        <ele>" ++ numStr (altVal p.alt) ++ "</ele>\n" else "") ++
  "        <time>" ++ toISOString p.timestamp ++ "</time>\n" ++
  "      </trkpt>\n"

/-- `generateGPX` from App.tsx: header, one block per point in order,
footer. -/
def generateGPX (points : List Point) : String :=
  gpxHeader ++ String.join (points.map trkptStr) ++ gpxFooter

/-! ### Session state -/

/-- The `status` state variable. -/
inductive Status where
  | idle | active | paused | summary
  deriving DecidableEq, Repr

/-- The `gpsSignal` state variable. -/
inductive SignalQuality where
  | good | fair | poor | none
  deriving DecidableEq, Repr

/-- The component state of `App` that the session tracker mutates
(`heartRate` and `batteryLevel` are device-plumbing display values never
read by the tracker and are omitted). -/
structure AppState where
  status : Status
  points : List Point
  distance : ℝ
  elapsedTime : ℕ
  elevationGain : ℚ
  maxAltitude : ℚ
  currentSpeed : ℚ
  avgSpeed : ℝ
  gpsSignal : SignalQuality
  calories : ℤ
  screenIndex : ℕ

/-- The `useState` initial values. -/
noncomputable def initialState : AppState :=
  { status := .idle, points := [], distance := 0, elapsedTime := 0,
    elevationGain := 0, maxAltitude := 0, currentSpeed := 0, avgSpeed := 0,
    gpsSignal := .none, calories := 0, screenIndex := 0 }

/-- `Math.round`: round half up, i.e. `⌊x + 1/2⌋`. -/
def jsRound (q : ℚ) : ℤ := ⌊q + 1 / 2⌋

/-- GPS signal classification from the fix's reported accuracy
(lines 115–117 of App.tsx). -/
def classifySignal (accuracy : ℚ) : SignalQuality :=
  if accuracy < 20 then .good else if accuracy < 50 then .fair else .poor

/-! ### Haversine distance -/

/-- Model of JavaScript `Math.atan2(y, x)` on non-exceptional inputs
(signed zeros and NaN have no counterpart here). -/
noncomputable def atan2 (y x : ℝ) : ℝ :=
  if 0 < x then Real.arctan (y / x)
  else if x < 0 ∧ 0 ≤ y then Real.arctan (y / x) + Real.pi
  else if x < 0 ∧ y < 0 then Real.arctan (y / x) - Real.pi
  else if x = 0 ∧ 0 < y then Real.pi / 2
  else if x = 0 ∧ y < 0 then -(Real.pi / 2)
  else 0

/-- `haversine` from App.tsx: great-circle distance in km between two
latitude/longitude pairs on a sphere of radius 6371 km. -/
noncomputable def haversine (lat1 lon1 lat2 lon2 : ℚ) : ℝ :=
  let R : ℝ := 6371
  let dLat : ℝ := ((lat2 : ℝ) - (lat1 : ℝ)) * Real.pi / 180
  let dLon : ℝ := ((lon2 : ℝ) - (lon1 : ℝ)) * Real.pi / 180
  let a := Real.sin (dLat / 2) * Real.sin (dLat / 2) +
    Real.cos ((lat1 : ℝ) * Real.pi / 180) * Real.cos ((lat2 : ℝ) * Real.pi / 180) *
      (Real.sin (dLon / 2) * Real.sin (dLon / 2))
  let c := 2 * atan2 (Real.sqrt a) (Real.sqrt (1 - a))
  R * c

/-- Sum of haversine distances between consecutive points of a track. -/
noncomputable def sumHaversine : List Point → ℝ
  | [] => 0
  | [_] => 0
  | a :: b :: rest => haversine a.lat a.lng b.lat b.lng + sumHaversine (b :: rest)

/-! ### Session tracker transitions

Each state transition of App.tsx is modelled as a pure function on
`AppState`.  The average-speed `useEffect` (deps `[distance,
elapsedTime]`) is folded in as `recomputeAvgSpeed`, applied after every
transition that changes distance or elapsed time, exactly as React runs
the effect after such a render. -/

/-- The average-speed effect (lines 178–182): recompute
`distance / (elapsedTime / 3600)` only when elapsed time is positive. -/
noncomputable def recomputeAvgSpeed (s : AppState) : AppState :=
  if 0 < s.elapsedTime
  then { s with avgSpeed := s.distance / ((s.elapsedTime : ℝ) / 3600) }
  else s

/-- The `watchPosition` success callback (lines 112–146): classify the
signal, accumulate distance and elevation gain against the previous
point, update max altitude, append the point, convert reported speed. -/
noncomputable def ingest (s : AppState) (pos : GeoPosition) : AppState :=
  let newPoint : Point :=
    { lat := pos.latitude, lng := pos.longitude, alt := pos.altitude,
      timestamp := pos.timestamp, speed := pos.speed }
  let distance' :=
    match s.points.getLast? with
    | some lastPoint =>
        s.distance + haversine lastPoint.lat lastPoint.lng newPoint.lat newPoint.lng
    | Option.none => s.distance
  let elevationGain' :=
    match s.points.getLast? with
    | some lastPoint =>
        if truthy newPoint.alt && truthy lastPoint.alt &&
            decide (altVal lastPoint.alt < altVal newPoint.alt)
        then s.elevationGain + (altVal newPoint.alt - altVal lastPoint.alt)
        else s.elevationGain
    | Option.none => s.elevationGain
  let maxAltitude' :=
    if truthy newPoint.alt && decide (s.maxAltitude < altVal newPoint.alt)
    then altVal newPoint.alt else s.maxAltitude
  let currentSpeed' :=
    match pos.speed with
    | some sp => sp * 3.6
    | Option.none => s.currentSpeed
  { s with gpsSignal := classifySignal pos.accuracy,
           points := s.points ++ [newPoint],
           distance := distance',
           elevationGain := elevationGain',
           maxAltitude := maxAltitude',
           currentSpeed := currentSpeed' }

/-- One second of the timer effect (lines 163–175): increment elapsed
time and recompute calories from the new value. -/
def tickUpdate (s : AppState) : AppState :=
  let newTime := s.elapsedTime + 1
  { s with elapsedTime := newTime,
           calories := jsRound (6 * 70 * ((newTime : ℚ) / 3600)) }

/-- The reset button of the summary screen (lines 287–302).  It clears
`points`, `distance`, `elapsedTime`, `elevationGain`, `maxAltitude`,
`calories` and `screenIndex` and returns to `idle`; `currentSpeed`,
`avgSpeed` and `gpsSignal` are not touched. -/
def resetSession (s : AppState) : AppState :=
  { s with status := .idle, points := [], distance := 0, elapsedTime := 0,
           elevationGain := 0, maxAltitude := 0, calories := 0, screenIndex := 0 }

/-- `handleStart` (lines 222–225); the heart-rate connection it may kick
off touches only `heartRate`, which is not tracker state. -/
def handleStart (s : AppState) : AppState := { s with status := .active }

/-- The events the outside world can deliver: the four control buttons
(each a no-op unless its button is rendered in the current status), one
timer tick, a geolocation fix, and a geolocation error.  The watch and
the timer are subscribed only while `active`, so their events are
guarded by `status = active`. -/
inductive Event where
  | pressStart | pressPause | pressStop | pressReset | tick
  | gpsFix (pos : GeoPosition) | gpsError
  deriving DecidableEq, Repr

/-- The complete state transition of App.tsx for one event. -/
noncomputable def step (s : AppState) : Event → AppState
  | .pressStart => if s.status = .idle then handleStart s else s
  | .pressPause => if s.status = .active then { s with status := .paused } else s
  | .pressStop =>
      if s.status = .active ∨ s.status = .paused
      then { s with status := .summary } else s
  | .pressReset =>
      if s.status = .summary then recomputeAvgSpeed (resetSession s) else s
  | .tick => if s.status = .active then recomputeAvgSpeed (tickUpdate s) else s
  | .gpsFix pos =>
      if s.status = .active then recomputeAvgSpeed (ingest s pos) else s
  | .gpsError => if s.status = .active then { s with gpsSignal := .none } else s

/-- Run the app from its initial state over a list of events. -/
noncomputable def run (events : List Event) : AppState :=
  events.foldl step initialState

/-- The `Point` built from an incoming fix (lines 119–125). -/
def mkPoint (pos : GeoPosition) : Point :=
  { lat := pos.latitude, lng := pos.longitude, alt := pos.altitude,
    timestamp := pos.timestamp, speed := pos.speed }

/-- Distance added when a point is appended to a track: haversine from
the track's last point, or `0` for the first point. -/
noncomputable def tailDistance (ps : List Point) (p : Point) : ℝ :=
  match ps.getLast? with
  | some l => haversine l.lat l.lng p.lat p.lng
  | Option.none => 0

/-- The calories value the timer effect computes from `t` elapsed
seconds: `Math.round(6.0 * 70 * (t / 3600))`. -/
def caloriesFormula (t : ℕ) : ℤ := jsRound (6 * 70 * ((t : ℚ) / 3600))

/-- Number of positions at which `pat` occurs in a character list. -/
def countSub (pat : List Char) : List Char → ℕ
  | [] => 0
  | c :: rest => (if pat.isPrefixOf (c :: rest) then 1 else 0) + countSub pat rest

/-- Whether the list contains a `'<'` immediately followed by `'e'` —
the only way any `<ele…` tag can start. -/
def hasPairLtE : List Char → Bool
  | a :: b :: rest => (decide (a = '<') && decide (b = 'e')) || hasPairLtE (b :: rest)
  | _ => false

/-- `pat` occurs contiguously somewhere in `l`. -/
def containsSeq (pat l : List Char) : Prop := ∃ s t, l = s ++ (pat ++ t)

/-- The characters of an `<ele>` opening tag. -/
def eleTag : List Char := ['<', 'e', 'l', 'e', '>']

/-! ### Concrete inputs used by witnesses and counterexamples -/

/-- The last recorded point used in the C2 witness. -/
def c2wLast : Point :=
  { lat := 0, lng := 0, alt := some 3, timestamp := 0, speed := Option.none }

/-- A concrete active session state whose last point has altitude 3 m. -/
noncomputable def c2wState : AppState :=
  { status := .active, points := [c2wLast], distance := 0, elapsedTime := 0,
    elevationGain := 0, maxAltitude := 3, currentSpeed := 0, avgSpeed := 0,
    gpsSignal := .good, calories := 0, screenIndex := 0 }

/-- A concrete fix at altitude 5 m for the C2 witness. -/
def c2wPos : GeoPosition :=
  { latitude := 0, longitude := 0, altitude := some 5, speed := Option.none,
    accuracy := 10, timestamp := 1000 }

/-- First fix of the C2 counterexample: altitude present but `0`. -/
def c2cPos1 : GeoPosition :=
  { latitude := 0, longitude := 0, altitude := some 0, speed := Option.none,
    accuracy := 10, timestamp := 0 }

/-- Second fix of the C2 counterexample: altitude 5, strictly above 0. -/
def c2cPos2 : GeoPosition :=
  { latitude := 0, longitude := 0, altitude := some 5, speed := Option.none,
    accuracy := 10, timestamp := 1000 }

/-- The C2 counterexample run: start, then the two fixes above. -/
def c2cEvents : List Event :=
  [Event.pressStart, Event.gpsFix c2cPos1, Event.gpsFix c2cPos2]

/-- A concrete active session state two seconds in, for the C4 witness. -/
noncomputable def c4wActive : AppState :=
  { status := .active, points := [], distance := 0, elapsedTime := 2,
    elevationGain := 0, maxAltitude := 0, currentSpeed := 0, avgSpeed := 0,
    gpsSignal := .none, calories := 0, screenIndex := 0 }

/-- A concrete summary state with a nonzero average speed, for the C4
witness. -/
noncomputable def c4wSummary : AppState :=
  { status := .summary, points := [], distance := 0, elapsedTime := 0,
    elevationGain := 0, maxAltitude := 0, currentSpeed := 0, avgSpeed := 7,
    gpsSignal := .none, calories := 0, screenIndex := 0 }

/-- A concrete fix for the C4 witness. -/
def c4wPos : GeoPosition :=
  { latitude := 1, longitude := 1, altitude := Option.none,
    speed := Option.none, accuracy := 10, timestamp := 2000 }

/-- First fix of the C4 counterexample, at the origin. -/
def c4cPos1 : GeoPosition :=
  { latitude := 0, longitude := 0, altitude := Option.none,
    speed := Option.none, accuracy := 5, timestamp := 0 }

/-- Second fix of the C4 counterexample, antipodal on the equator. -/
def c4cPos2 : GeoPosition :=
  { latitude := 0, longitude := 180, altitude := Option.none,
    speed := Option.none, accuracy := 5, timestamp := 1000 }

/-- The C4 counterexample run: a session that accumulates distance and
one second, is stopped, and is reset. -/
def c4cEvents : List Event :=
  [Event.pressStart, Event.tick, Event.gpsFix c4cPos1, Event.gpsFix c4cPos2,
   Event.pressStop, Event.pressReset]

/-- A concrete summary state with every metric nonzero, for the C5
witness. -/
noncomputable def c5wState : AppState :=
  { status := .summary,
    points := [{ lat := 0, lng := 0, alt := Option.none, timestamp := 0,
                 speed := Option.none }],
    distance := 3, elapsedTime := 4, elevationGain := 5, maxAltitude := 6,
    currentSpeed := 7, avgSpeed := 8, gpsSignal := .fair, calories := 9,
    screenIndex := 1 }

/-- The fix of the C5 counterexample: good accuracy and a reported
speed of 2 m/s. -/
def c5cPos : GeoPosition :=
  { latitude := 0, longitude := 0, altitude := Option.none, speed := some 2,
    accuracy := 5, timestamp := 0 }

/-- The C5 counterexample run: start, one fix, stop, reset. -/
def c5cEvents : List Event :=
  [Event.pressStart, Event.gpsFix c5cPos, Event.pressStop, Event.pressReset]

/-- A minimal app state with the given status, for the C6 witness. -/
noncomputable def c6w (st : Status) : AppState := { initialState with status := st }

/-- A concrete active state for the C9 witness. -/
noncomputable def c9wState : AppState := { initialState with status := .active }

/-- Fix with accuracy 15 (spec scenario: `good`). -/
def c9wPos15 : GeoPosition :=
  { latitude := 0, longitude := 0, altitude := Option.none,
    speed := Option.none, accuracy := 15, timestamp := 0 }

/-- Fix with accuracy 35 (spec scenario: `fair`). -/
def c9wPos35 : GeoPosition := { c9wPos15 with accuracy := 35 }

/-- Fix with accuracy 80 (spec scenario: `poor`). -/
def c9wPos80 : GeoPosition := { c9wPos15 with accuracy := 80 }

/-- A concrete active state for the C10 witness. -/
noncomputable def c10wState : AppState := { initialState with status := .active }

/-- A fix whose altitude is present but exactly `0`. -/
def c10wPos : GeoPosition :=
  { latitude := 0, longitude := 0, altitude := some 0, speed := Option.none,
    accuracy := 10, timestamp := 0 }

/-- A stored point whose altitude is present but exactly `0`. -/
def c10wP : Point :=
  { lat := 0, lng := 0, alt := some 0, timestamp := 0, speed := Option.none }

/-- A point lacking altitude, for the C7 witness. -/
def c7wNone : Point :=
  { lat := 1, lng := 2, alt := Option.none, timestamp := 0, speed := Option.none }

/-- A point carrying altitude 100, for the C7 witness. -/
def c7wAlt : Point :=
  { lat := 3, lng := 4, alt := some 100, timestamp := 1000, speed := Option.none }

/-- The two-point track of the C7 witness. -/
def c7wList : List Point := [c7wNone, c7wAlt]

/-- The C6 counterexample run reaching the `paused` state. -/
def c6cEvents : List Event := [Event.pressStart, Event.pressPause]

/-- A concrete fix used to exercise the `gpsFix` event from `paused`. -/
def c6cPos : GeoPosition :=
  { latitude := 0, longitude := 0, altitude := Option.none,
    speed := Option.none, accuracy := 5, timestamp := 0 }

/-! ### Helper lemmas -/

lemma atan2_nonneg (y x : ℝ) (hy : 0 ≤ y) (hx : 0 ≤ x) : 0 ≤ atan2 y x := by
  unfold atan2
  split_ifs with h1 h2 h3 h4 h5
  · have h0 := Real.arctan_strictMono.monotone (div_nonneg hy h1.le)
    rwa [Real.arctan_zero] at h0
  · exact absurd h2.1 (not_lt.2 hx)
  · exact absurd h3.1 (not_lt.2 hx)
  · positivity
  · exact absurd h5.2 (not_lt.2 hy)
  · exact le_refl 0

lemma haversine_nonneg (lat1 lon1 lat2 lon2 : ℚ) :
    0 ≤ haversine lat1 lon1 lat2 lon2 := by
  simp only [haversine]
  exact mul_nonneg (by norm_num)
    (mul_nonneg (by norm_num)
      (atan2_nonneg _ _ (Real.sqrt_nonneg _) (Real.sqrt_nonneg _)))

lemma tailDistance_nonneg (ps : List Point) (p : Point) : 0 ≤ tailDistance ps p := by
  unfold tailDistance
  cases ps.getLast? with
  | none => exact le_refl 0
  | some l => exact haversine_nonneg _ _ _ _

lemma tailDistance_cons₂ (a b : Point) (rest : List Point) (p : Point) :
    tailDistance (a :: b :: rest) p = tailDistance (b :: rest) p := by
  unfold tailDistance
  rw [List.getLast?_cons_cons]

lemma sumHaversine_concat (ps : List Point) (p : Point) :
    sumHaversine (ps ++ [p]) = sumHaversine ps + tailDistance ps p := by
  induction ps with
  | nil => simp [sumHaversine, tailDistance]
  | cons a tail ih =>
    cases tail with
    | nil => simp [sumHaversine, tailDistance]
    | cons b rest =>
      have hcons : (a :: b :: rest) ++ [p] = a :: ((b :: rest) ++ [p]) := rfl
      have hcons2 : (b :: rest) ++ [p] = b :: (rest ++ [p]) := rfl
      rw [hcons, hcons2]
      rw [show sumHaversine (a :: b :: (rest ++ [p])) =
            haversine a.lat a.lng b.lat b.lng + sumHaversine (b :: (rest ++ [p]))
          from by simp [sumHaversine]]
      rw [← hcons2, ih, tailDistance_cons₂,
        show sumHaversine (a :: b :: rest) =
            haversine a.lat a.lng b.lat b.lng + sumHaversine (b :: rest)
          from by simp [sumHaversine],
        add_assoc]

lemma recomputeAvgSpeed_distance (s : AppState) :
    (recomputeAvgSpeed s).distance = s.distance := by
  unfold recomputeAvgSpeed; split <;> rfl

lemma recomputeAvgSpeed_points (s : AppState) :
    (recomputeAvgSpeed s).points = s.points := by
  unfold recomputeAvgSpeed; split <;> rfl

lemma recomputeAvgSpeed_elapsedTime (s : AppState) :
    (recomputeAvgSpeed s).elapsedTime = s.elapsedTime := by
  unfold recomputeAvgSpeed; split <;> rfl

lemma recomputeAvgSpeed_calories (s : AppState) :
    (recomputeAvgSpeed s).calories = s.calories := by
  unfold recomputeAvgSpeed; split <;> rfl

lemma recomputeAvgSpeed_elevationGain (s : AppState) :
    (recomputeAvgSpeed s).elevationGain = s.elevationGain := by
  unfold recomputeAvgSpeed; split <;> rfl

lemma ingest_distance (s : AppState) (pos : GeoPosition) :
    (ingest s pos).distance = s.distance + tailDistance s.points (mkPoint pos) := by
  unfold ingest tailDistance mkPoint
  cases s.points.getLast? with
  | none => simp
  | some l => simp

lemma ingest_points (s : AppState) (pos : GeoPosition) :
    (ingest s pos).points = s.points ++ [mkPoint pos] := rfl

lemma ingest_elapsedTime (s : AppState) (pos : GeoPosition) :
    (ingest s pos).elapsedTime = s.elapsedTime := rfl

lemma ingest_calories (s : AppState) (pos : GeoPosition) :
    (ingest s pos).calories = s.calories := rfl

/-- The cumulative-distance invariant is preserved by every event. -/
lemma step_preserves_distanceInv (s : AppState) (e : Event)
    (h : s.distance = sumHaversine s.points) :
    (step s e).distance = sumHaversine (step s e).points := by
  cases e with
  | pressStart => simp only [step, handleStart]; split <;> exact h
  | pressPause => simp only [step]; split <;> exact h
  | pressStop => simp only [step]; split <;> exact h
  | pressReset =>
    simp only [step]
    split
    · rw [recomputeAvgSpeed_distance, recomputeAvgSpeed_points]
      simp [resetSession, sumHaversine]
    · exact h
  | tick =>
    simp only [step]
    split
    · rw [recomputeAvgSpeed_distance, recomputeAvgSpeed_points]
      exact h
    · exact h
  | gpsFix pos =>
    simp only [step]
    split
    · rw [recomputeAvgSpeed_distance, recomputeAvgSpeed_points,
        ingest_distance, ingest_points, sumHaversine_concat, h]
    · exact h
  | gpsError => simp only [step]; split <;> exact h

/-- The calories invariant is preserved by every event. -/
lemma step_preserves_caloriesInv (s : AppState) (e : Event)
    (h : s.calories = caloriesFormula s.elapsedTime) :
    (step s e).calories = caloriesFormula (step s e).elapsedTime := by
  cases e with
  | pressStart => simp only [step, handleStart]; split <;> exact h
  | pressPause => simp only [step]; split <;> exact h
  | pressStop => simp only [step]; split <;> exact h
  | pressReset =>
    simp only [step]
    split
    · rw [recomputeAvgSpeed_calories, recomputeAvgSpeed_elapsedTime]
      simp only [resetSession, caloriesFormula, jsRound]
      norm_num
    · exact h
  | tick =>
    simp only [step]
    split
    · rw [recomputeAvgSpeed_calories, recomputeAvgSpeed_elapsedTime]
      rfl
    · exact h
  | gpsFix pos =>
    simp only [step]
    split
    · rw [recomputeAvgSpeed_calories, recomputeAvgSpeed_elapsedTime,
        ingest_calories, ingest_elapsedTime]
      exact h
    · exact h
  | gpsError => simp only [step]; split <;> exact h

/-- Any property preserved by `step` holds after folding a whole event
list. -/
lemma foldl_preserves (P : AppState → Prop)
    (hP : ∀ s e, P s → P (step s e)) :
    ∀ (events : List Event) (s : AppState), P s → P (events.foldl step s) := by
  intro events
  induction events with
  | nil => intro s h; exact h
  | cons e rest ih => intro s h; exact ih (step s e) (hP s e h)

lemma ingest_elevationGain (s : AppState) (pos : GeoPosition) :
    (ingest s pos).elevationGain =
      (match s.points.getLast? with
       | some lastPoint =>
           if truthy pos.altitude && truthy lastPoint.alt &&
               decide (altVal lastPoint.alt < altVal pos.altitude)
           then s.elevationGain + (altVal pos.altitude - altVal lastPoint.alt)
           else s.elevationGain
       | Option.none => s.elevationGain) := by
  unfold ingest
  cases s.points.getLast? <;> rfl

lemma ingest_elevationGain_le (s : AppState) (pos : GeoPosition) :
    s.elevationGain ≤ (ingest s pos).elevationGain := by
  rw [ingest_elevationGain]
  cases s.points.getLast? with
  | none => exact le_refl _
  | some lastPoint =>
    dsimp only
    split
    · rename_i hcond
      simp only [Bool.and_eq_true, decide_eq_true_eq] at hcond
      linarith [hcond.2]
    · exact le_refl _

lemma step_elevationGain_le (s : AppState) (e : Event) (he : e ≠ Event.pressReset) :
    s.elevationGain ≤ (step s e).elevationGain := by
  cases e with
  | pressStart => simp only [step, handleStart]; split <;> exact le_refl _
  | pressPause => simp only [step]; split <;> exact le_refl _
  | pressStop => simp only [step]; split <;> exact le_refl _
  | pressReset => exact absurd rfl he
  | tick =>
    simp only [step]
    split
    · rw [recomputeAvgSpeed_elevationGain]; exact le_refl _
    · exact le_refl _
  | gpsFix pos =>
    simp only [step]
    split
    · rw [recomputeAvgSpeed_elevationGain]; exact ingest_elevationGain_le s pos
    · exact le_refl _
  | gpsError => simp only [step]; split <;> exact le_refl _

/-! ### Claim theorems -/

/-- **C1.** For every sequence of accepted points, the cumulative
distance maintained by the session tracker equals the sum of pairwise
haversine great-circle distances (on a sphere of radius 6371 km)
between consecutive points in arrival order, and ingesting a further
point never decreases it. -/
theorem cumulative_distance_is_sum_of_haversines :
    (∀ events : List Event,
      (run events).distance = sumHaversine (run events).points) ∧
    (∀ (s : AppState) (pos : GeoPosition),
      s.distance ≤ (step s (Event.gpsFix pos)).distance) := by
  constructor
  · intro events
    exact foldl_preserves (fun s => s.distance = sumHaversine s.points)
      step_preserves_distanceInv events initialState (by simp [initialState, sumHaversine])
  · intro s pos
    simp only [step]
    split
    · rw [recomputeAvgSpeed_distance, ingest_distance]
      exact le_add_of_nonneg_right (tailDistance_nonneg _ _)
    · exact le_refl _

/-- **C3.** In every reachable state the calories metric equals
`Math.round(6.0 * 70 * (elapsedSeconds / 3600))`, and that formula is
non-decreasing in the elapsed seconds. -/
theorem calories_formula_and_monotone :
    (∀ events : List Event,
      (run events).calories = caloriesFormula (run events).elapsedTime) ∧
    (∀ t₁ t₂ : ℕ, t₁ ≤ t₂ → caloriesFormula t₁ ≤ caloriesFormula t₂) := by
  constructor
  · intro events
    refine foldl_preserves (fun s => s.calories = caloriesFormula s.elapsedTime)
      step_preserves_caloriesInv events initialState ?_
    simp only [initialState, caloriesFormula, jsRound]
    norm_num
  · intro t₁ t₂ hle
    unfold caloriesFormula jsRound
    apply Int.floor_le_floor
    have hc : (t₁ : ℚ) ≤ (t₂ : ℚ) := Nat.cast_le.2 hle
    have h36 : (0:ℚ) < 3600 := by norm_num
    gcongr

/-- Witness for C3 at concrete inputs: one started session after one
tick, and the monotonicity instance `60 ≤ 7200`. -/
theorem calories_formula_and_monotone_witness :
    (run [Event.pressStart, Event.tick]).calories =
      caloriesFormula (run [Event.pressStart, Event.tick]).elapsedTime ∧
    caloriesFormula 60 ≤ caloriesFormula 7200 :=
  ⟨calories_formula_and_monotone.1 [Event.pressStart, Event.tick],
   calories_formula_and_monotone.2 60 7200 (by norm_num)⟩

/-- **C2** (amended: a point "carries altitude" only when its altitude
is non-null *and nonzero*, since the code tests JavaScript truthiness).
During an active session, ingesting a fix adds exactly the positive
altitude delta to elevation gain when the previous and the new point
both carry a nonzero altitude and the new one is strictly higher;
when either altitude is falsy or the new altitude does not exceed the
previous one, or there is no previous point, elevation gain is
unchanged; and no event except reset ever decreases elevation gain. -/
theorem elevationGain_ascent_only (s : AppState) (pos : GeoPosition)
    (hactive : s.status = Status.active) :
    (∀ (lastPoint : Point) (va vn : ℚ), s.points.getLast? = some lastPoint →
      lastPoint.alt = some va → va ≠ 0 → pos.altitude = some vn → vn ≠ 0 → va < vn →
      (step s (Event.gpsFix pos)).elevationGain = s.elevationGain + (vn - va)) ∧
    (∀ lastPoint : Point, s.points.getLast? = some lastPoint →
      truthy pos.altitude = false ∨ truthy lastPoint.alt = false ∨
        altVal pos.altitude ≤ altVal lastPoint.alt →
      (step s (Event.gpsFix pos)).elevationGain = s.elevationGain) ∧
    (s.points.getLast? = Option.none →
      (step s (Event.gpsFix pos)).elevationGain = s.elevationGain) ∧
    (∀ e : Event, e ≠ Event.pressReset →
      s.elevationGain ≤ (step s e).elevationGain) := by
  have hstep : step s (Event.gpsFix pos) = recomputeAvgSpeed (ingest s pos) := by
    simp [step, hactive]
  refine ⟨?_, ?_, ?_, fun e he => step_elevationGain_le s e he⟩
  · intro lastPoint va vn hlast halt hva hpalt hvn hlt
    rw [hstep, recomputeAvgSpeed_elevationGain, ingest_elevationGain, hlast]
    dsimp only
    rw [hpalt, halt]
    simp [truthy, altVal, hva, hvn, hlt]
  · intro lastPoint hlast hfalse
    rw [hstep, recomputeAvgSpeed_elevationGain, ingest_elevationGain, hlast]
    dsimp only
    rw [if_neg]
    intro hc
    simp only [Bool.and_eq_true, decide_eq_true_eq] at hc
    rcases hfalse with h | h | h
    · rw [h] at hc; exact Bool.false_ne_true hc.1.1
    · rw [h] at hc; exact Bool.false_ne_true hc.1.2
    · exact absurd hc.2 (not_lt.2 h)
  · intro hnone
    rw [hstep, recomputeAvgSpeed_elevationGain, ingest_elevationGain, hnone]

/-- Witness for C2: ingesting a 5 m fix over a 3 m point adds exactly
2 m of elevation gain. -/
theorem elevationGain_ascent_only_witness :
    c2wState.status = Status.active ∧
    (step c2wState (Event.gpsFix c2wPos)).elevationGain =
      c2wState.elevationGain + (5 - 3) :=
  ⟨rfl, (elevationGain_ascent_only c2wState c2wPos rfl).1 c2wLast 3 5 rfl rfl
    (by norm_num) rfl (by norm_num) (by norm_num)⟩

/-- Counterexample to C2 as stated: both points carry (non-null)
altitudes, `0` and `5`, and the new altitude strictly exceeds the
previous one, yet elevation gain stays `0` instead of becoming the
claimed delta `5`, because the code treats the altitude `0` as falsy. -/
theorem elevationGain_counterexample :
    (run c2cEvents).points.map Point.alt = [some 0, some 5] ∧
    (run [Event.pressStart, Event.gpsFix c2cPos1]).elevationGain = 0 ∧
    (run c2cEvents).elevationGain = 0 ∧
    (run c2cEvents).elevationGain ≠ 5 := by
  refine ⟨by decide, by decide, by decide, by decide⟩

lemma ingest_avgSpeed (s : AppState) (pos : GeoPosition) :
    (ingest s pos).avgSpeed = s.avgSpeed := rfl

/-- **C4** (amended: when elapsed time is zero the average speed is
*left unchanged* — that is zero in a fresh session, but after a reset it
retains the previous session's value — rather than being zero).  While
active, any distance or time change recomputes average speed as
`distance / (elapsedSeconds / 3600)` whenever elapsed time is positive,
and reset never touches it. -/
theorem avgSpeed_recompute (s : AppState) (pos : GeoPosition) :
    (s.status = Status.active → 0 < s.elapsedTime →
      (step s (Event.gpsFix pos)).avgSpeed =
        (ingest s pos).distance / ((s.elapsedTime : ℝ) / 3600)) ∧
    (s.status = Status.active → s.elapsedTime = 0 →
      (step s (Event.gpsFix pos)).avgSpeed = s.avgSpeed) ∧
    (s.status = Status.active →
      (step s Event.tick).avgSpeed =
        s.distance / (((s.elapsedTime : ℝ) + 1) / 3600)) ∧
    (s.status = Status.summary →
      (step s Event.pressReset).avgSpeed = s.avgSpeed) := by
  refine ⟨?_, ?_, ?_, ?_⟩
  · intro hactive ht
    have hstep : step s (Event.gpsFix pos) = recomputeAvgSpeed (ingest s pos) := by
      simp [step, hactive]
    rw [hstep]
    unfold recomputeAvgSpeed
    rw [ingest_elapsedTime, if_pos ht]
  · intro hactive ht
    have hstep : step s (Event.gpsFix pos) = recomputeAvgSpeed (ingest s pos) := by
      simp [step, hactive]
    rw [hstep]
    unfold recomputeAvgSpeed
    rw [ingest_elapsedTime, ht, if_neg (lt_irrefl 0), ingest_avgSpeed]
  · intro hactive
    have hstep : step s Event.tick = recomputeAvgSpeed (tickUpdate s) := by
      simp [step, hactive]
    rw [hstep]
    unfold recomputeAvgSpeed
    have hel : (tickUpdate s).elapsedTime = s.elapsedTime + 1 := rfl
    rw [hel, if_pos (Nat.succ_pos s.elapsedTime)]
    have hdist : (tickUpdate s).distance = s.distance := rfl
    show (tickUpdate s).distance / (((s.elapsedTime + 1 : ℕ) : ℝ) / 3600) =
      s.distance / (((s.elapsedTime : ℝ) + 1) / 3600)
    rw [hdist]
    push_cast
    ring
  · intro hsummary
    have hstep : step s Event.pressReset = recomputeAvgSpeed (resetSession s) := by
      simp [step, hsummary]
    rw [hstep]
    unfold recomputeAvgSpeed
    have hel : (resetSession s).elapsedTime = 0 := rfl
    rw [hel, if_neg (lt_irrefl 0)]
    rfl

/-- Witness for C4: a fix two seconds into an active session recomputes
the average speed, and reset from a summary state leaves it alone. -/
theorem avgSpeed_recompute_witness :
    (step c4wActive (Event.gpsFix c4wPos)).avgSpeed =
      (ingest c4wActive c4wPos).distance / ((c4wActive.elapsedTime : ℝ) / 3600) ∧
    (step c4wSummary Event.pressReset).avgSpeed = c4wSummary.avgSpeed :=
  ⟨(avgSpeed_recompute c4wActive c4wPos).1 rfl (by decide),
   (avgSpeed_recompute c4wSummary c4wPos).2.2.2 rfl⟩

/-- Evaluation of the haversine formula between `(0°, 0°)` and
`(0°, 180°)`: half the equator, `6371 π` km. -/
lemma haversine_equator_antipodal : haversine 0 0 0 180 = 6371 * Real.pi := by
  simp only [haversine]
  have h0 : ((0:ℚ):ℝ) = 0 := by norm_num
  have h180 : ((180:ℚ):ℝ) = 180 := by norm_num
  rw [h0, h180]
  have e1 : ((0:ℝ) - 0) * Real.pi / 180 / 2 = 0 := by ring
  have e2 : ((180:ℝ) - 0) * Real.pi / 180 / 2 = Real.pi / 2 := by ring
  have e3 : (0:ℝ) * Real.pi / 180 = 0 := by ring
  rw [e1, e2, e3, Real.sin_zero, Real.cos_zero, Real.sin_pi_div_two]
  norm_num
  have hat : atan2 1 0 = Real.pi / 2 := by simp [atan2]
  rw [hat]
  ring

/-- Counterexample to C4 as stated: after the reset the state has
elapsed time zero but a nonzero average speed — the claim "average
speed is zero whenever elapsed time is zero" fails on reachable
states, because reset clears the time but not the average speed. -/
theorem avgSpeed_counterexample :
    (run c4cEvents).elapsedTime = 0 ∧ (run c4cEvents).avgSpeed ≠ 0 := by
  constructor
  · rfl
  · have h : (run c4cEvents).avgSpeed =
        (0 + haversine 0 0 0 180) / (((1:ℕ) : ℝ) / 3600) := rfl
    rw [h, haversine_equator_antipodal]
    positivity

lemma recomputeAvgSpeed_status (s : AppState) :
    (recomputeAvgSpeed s).status = s.status := by
  unfold recomputeAvgSpeed; split <;> rfl

lemma ingest_status (s : AppState) (pos : GeoPosition) :
    (ingest s pos).status = s.status := rfl

lemma tickUpdate_status (s : AppState) : (tickUpdate s).status = s.status := rfl

/-- **C5** (amended: reset clears the point sequence, distance, elapsed
time, elevation gain, max altitude, calories and the screen index, and
returns to `idle`, but it leaves current speed, average speed and GPS
signal quality at their last values rather than restoring their
initial ones).  Reset is also the only effective transition out of
`summary`: every other event is a complete no-op there. -/
theorem reset_clears_session (s : AppState) (hsummary : s.status = Status.summary) :
    (step s Event.pressReset).status = Status.idle ∧
    (step s Event.pressReset).points = [] ∧
    (step s Event.pressReset).distance = 0 ∧
    (step s Event.pressReset).elapsedTime = 0 ∧
    (step s Event.pressReset).elevationGain = 0 ∧
    (step s Event.pressReset).maxAltitude = 0 ∧
    (step s Event.pressReset).calories = 0 ∧
    (step s Event.pressReset).screenIndex = 0 ∧
    (step s Event.pressReset).currentSpeed = s.currentSpeed ∧
    (step s Event.pressReset).avgSpeed = s.avgSpeed ∧
    (step s Event.pressReset).gpsSignal = s.gpsSignal ∧
    (∀ e : Event, e ≠ Event.pressReset → step s e = s) := by
  have hstep : step s Event.pressReset = recomputeAvgSpeed (resetSession s) := by
    simp [step, hsummary]
  have hnoav : recomputeAvgSpeed (resetSession s) = resetSession s := by
    unfold recomputeAvgSpeed
    rw [if_neg]
    exact lt_irrefl 0
  rw [hstep, hnoav]
  refine ⟨rfl, rfl, rfl, rfl, rfl, rfl, rfl, rfl, rfl, rfl, rfl, ?_⟩
  intro e he
  cases e <;> first
    | exact absurd rfl he
    | simp [step, hsummary]

/-- Witness for C5: resetting the concrete summary state goes to idle
yet keeps the `fair` GPS signal and the current speed `7`. -/
theorem reset_clears_session_witness :
    (step c5wState Event.pressReset).status = Status.idle ∧
    (step c5wState Event.pressReset).points = [] ∧
    (step c5wState Event.pressReset).gpsSignal = SignalQuality.fair ∧
    (step c5wState Event.pressReset).currentSpeed = 7 := by
  obtain ⟨h1, h2, _, _, _, _, _, _, h9, _, h11, _⟩ := reset_clears_session c5wState rfl
  exact ⟨h1, h2, h11.trans rfl, h9.trans rfl⟩

/-- Counterexample to C5 as stated: after reset the state is `idle`
but the GPS signal quality is still `good` (not the initial `none`)
and the current speed is still `7.2` km/h (not `0`) — reset does not
restore those metrics. -/
theorem reset_counterexample :
    (run c5cEvents).status = Status.idle ∧
    (run c5cEvents).gpsSignal = SignalQuality.good ∧
    (run c5cEvents).gpsSignal ≠ SignalQuality.none ∧
    (run c5cEvents).currentSpeed = 7.2 ∧
    (run c5cEvents).currentSpeed ≠ 0 := by
  have h : (run c5cEvents).currentSpeed = 2 * 3.6 := rfl
  refine ⟨by decide, by decide, by decide, by rw [h]; norm_num, by rw [h]; norm_num⟩

/-- **C6** (amended: there is no resume — the code renders no control
that leaves `paused` for `active`).  The accepted transitions are
idle→active (start), active→paused (pause), active→summary and
paused→summary (stop), and summary→idle (reset); from `idle` only
start is effective, from `paused` only stop, from `summary` only
reset, and every other event is a no-op on the whole state. -/
theorem state_machine_transitions (s : AppState) :
    (s.status = Status.idle →
      (step s Event.pressStart).status = Status.active ∧
      ∀ e : Event, e ≠ Event.pressStart → step s e = s) ∧
    (s.status = Status.active →
      (step s Event.pressPause).status = Status.paused ∧
      (step s Event.pressStop).status = Status.summary ∧
      ∀ e : Event, e ≠ Event.pressPause → e ≠ Event.pressStop →
        (step s e).status = Status.active) ∧
    (s.status = Status.paused →
      (step s Event.pressStop).status = Status.summary ∧
      ∀ e : Event, e ≠ Event.pressStop → step s e = s) ∧
    (s.status = Status.summary →
      (step s Event.pressReset).status = Status.idle ∧
      ∀ e : Event, e ≠ Event.pressReset → step s e = s) := by
  refine ⟨?_, ?_, ?_, ?_⟩
  · intro h
    refine ⟨by simp [step, handleStart, h], ?_⟩
    intro e he
    cases e <;> first
      | exact absurd rfl he
      | simp [step, h]
  · intro h
    refine ⟨by simp [step, h], by simp [step, h], ?_⟩
    intro e he1 he2
    cases e <;> first
      | exact absurd rfl he1
      | exact absurd rfl he2
      | simp [step, handleStart, h, recomputeAvgSpeed_status, ingest_status,
          tickUpdate_status]
  · intro h
    refine ⟨by simp [step, h], ?_⟩
    intro e he
    cases e <;> first
      | exact absurd rfl he
      | simp [step, h]
  · intro h
    refine ⟨by simp [step, h, recomputeAvgSpeed_status, resetSession], ?_⟩
    intro e he
    cases e <;> first
      | exact absurd rfl he
      | simp [step, h]

/-- Witness for C6 at concrete states: each accepted transition fires,
and a tick in `paused` is a complete no-op. -/
theorem state_machine_transitions_witness :
    (step (c6w Status.idle) Event.pressStart).status = Status.active ∧
    (step (c6w Status.active) Event.pressPause).status = Status.paused ∧
    (step (c6w Status.paused) Event.pressStop).status = Status.summary ∧
    step (c6w Status.paused) Event.tick = c6w Status.paused ∧
    (step (c6w Status.summary) Event.pressReset).status = Status.idle :=
  ⟨((state_machine_transitions (c6w Status.idle)).1 rfl).1,
   ((state_machine_transitions (c6w Status.active)).2.1 rfl).1,
   ((state_machine_transitions (c6w Status.paused)).2.2.1 rfl).1,
   ((state_machine_transitions (c6w Status.paused)).2.2.1 rfl).2 Event.tick (by decide),
   ((state_machine_transitions (c6w Status.summary)).2.2.2 rfl).1⟩

lemma ingest_gpsSignal (s : AppState) (pos : GeoPosition) :
    (ingest s pos).gpsSignal = classifySignal pos.accuracy := rfl

lemma recomputeAvgSpeed_gpsSignal (s : AppState) :
    (recomputeAvgSpeed s).gpsSignal = s.gpsSignal := by
  unfold recomputeAvgSpeed; split <;> rfl

/-- **C9.** On every successful fix during an active session the GPS
signal quality is classified from the reported accuracy —
`good` below 20, `fair` from 20 up to 50, `poor` otherwise — and a
fix-acquisition failure sets the quality to `none` while changing
nothing else: points, distance, elapsed time, status and every other
metric are untouched, so recording continues. -/
theorem gps_signal_classification (s : AppState) (pos : GeoPosition)
    (hactive : s.status = Status.active) :
    ((pos.accuracy < 20 →
        (step s (Event.gpsFix pos)).gpsSignal = SignalQuality.good) ∧
     (20 ≤ pos.accuracy → pos.accuracy < 50 →
        (step s (Event.gpsFix pos)).gpsSignal = SignalQuality.fair) ∧
     (50 ≤ pos.accuracy →
        (step s (Event.gpsFix pos)).gpsSignal = SignalQuality.poor)) ∧
    ((step s Event.gpsError).gpsSignal = SignalQuality.none ∧
     (step s Event.gpsError).points = s.points ∧
     (step s Event.gpsError).distance = s.distance ∧
     (step s Event.gpsError).elapsedTime = s.elapsedTime ∧
     (step s Event.gpsError).status = s.status ∧
     (step s Event.gpsError).elevationGain = s.elevationGain ∧
     (step s Event.gpsError).maxAltitude = s.maxAltitude ∧
     (step s Event.gpsError).currentSpeed = s.currentSpeed ∧
     (step s Event.gpsError).avgSpeed = s.avgSpeed ∧
     (step s Event.gpsError).calories = s.calories) := by
  have hfix : step s (Event.gpsFix pos) = recomputeAvgSpeed (ingest s pos) := by
    simp [step, hactive]
  have herr : step s Event.gpsError = { s with gpsSignal := SignalQuality.none } := by
    simp [step, hactive]
  have hsig : (step s (Event.gpsFix pos)).gpsSignal = classifySignal pos.accuracy := by
    rw [hfix, recomputeAvgSpeed_gpsSignal, ingest_gpsSignal]
  refine ⟨⟨?_, ?_, ?_⟩, ?_⟩
  · intro h
    rw [hsig]
    unfold classifySignal
    rw [if_pos h]
  · intro h20 h50
    rw [hsig]
    unfold classifySignal
    rw [if_neg (not_lt.2 h20), if_pos h50]
  · intro h50
    rw [hsig]
    unfold classifySignal
    rw [if_neg (not_lt.2 (le_trans (by norm_num) h50)),
      if_neg (not_lt.2 h50)]
  · rw [herr]
    exact ⟨rfl, rfl, rfl, rfl, rfl, rfl, rfl, rfl, rfl, rfl⟩

/-- Witness for C9 on the spec's scenario accuracies 15, 35 and 80,
plus a fix failure. -/
theorem gps_signal_classification_witness :
    (step c9wState (Event.gpsFix c9wPos15)).gpsSignal = SignalQuality.good ∧
    (step c9wState (Event.gpsFix c9wPos35)).gpsSignal = SignalQuality.fair ∧
    (step c9wState (Event.gpsFix c9wPos80)).gpsSignal = SignalQuality.poor ∧
    (step c9wState Event.gpsError).gpsSignal = SignalQuality.none :=
  ⟨(gps_signal_classification c9wState c9wPos15 rfl).1.1 (by decide),
   (gps_signal_classification c9wState c9wPos35 rfl).1.2.1 (by decide) (by decide),
   (gps_signal_classification c9wState c9wPos80 rfl).1.2.2 (by decide),
   (gps_signal_classification c9wState c9wPos80 rfl).2.1⟩

/-- The per-point GPX block of a point with falsy altitude: latitude,
longitude and ISO-8601 time are emitted, the `<ele>` element is not. -/
lemma trkptStr_of_falsy (p : Point) (hp : truthy p.alt = false) :
    trkptStr p =
      "      <trkpt lat=\"" ++ numStr p.lat ++ "\" lon=\"" ++ numStr p.lng ++
        "\">\n        <time>" ++ toISOString p.timestamp ++
        "</time>\n      </trkpt>\n" := by
  unfold trkptStr
  rw [hp]
  simp [String.append_assoc]

/-- The per-point GPX block of a point with truthy altitude: the
`<ele>` element is emitted between the coordinates and the time. -/
lemma trkptStr_of_truthy (p : Point) (hp : truthy p.alt = true) :
    trkptStr p =
      "      <trkpt lat=\"" ++ numStr p.lat ++ "\" lon=\"" ++ numStr p.lng ++
        "\">\n" ++ ("        <ele>" ++ numStr (altVal p.alt) ++ "</ele>\n") ++
        "        <time>" ++ toISOString p.timestamp ++ "</time>\n" ++
        "      </trkpt>\n" := by
  unfold trkptStr
  rw [hp, if_pos rfl]

lemma ingest_maxAltitude (s : AppState) (pos : GeoPosition) :
    (ingest s pos).maxAltitude =
      (if truthy pos.altitude && decide (s.maxAltitude < altVal pos.altitude)
       then altVal pos.altitude else s.maxAltitude) := rfl

lemma ingest_currentSpeed (s : AppState) (pos : GeoPosition) :
    (ingest s pos).currentSpeed =
      (match pos.speed with
       | some sp => sp * 3.6
       | Option.none => s.currentSpeed) := rfl

lemma recomputeAvgSpeed_maxAltitude (s : AppState) :
    (recomputeAvgSpeed s).maxAltitude = s.maxAltitude := by
  unfold recomputeAvgSpeed; split <;> rfl

lemma recomputeAvgSpeed_currentSpeed (s : AppState) :
    (recomputeAvgSpeed s).currentSpeed = s.currentSpeed := by
  unfold recomputeAvgSpeed; split <;> rfl

lemma ingest_elevationGain_of_falsy (s : AppState) (pos : GeoPosition)
    (h : truthy pos.altitude = false) :
    (ingest s pos).elevationGain = s.elevationGain := by
  rw [ingest_elevationGain]
  cases s.points.getLast? with
  | none => rfl
  | some lastPoint => dsimp only; simp [h]

lemma ingest_maxAltitude_of_falsy (s : AppState) (pos : GeoPosition)
    (h : truthy pos.altitude = false) :
    (ingest s pos).maxAltitude = s.maxAltitude := by
  rw [ingest_maxAltitude, h]
  simp

/-- **C10.** A point whose altitude is exactly `0` is treated as if the
altitude were absent: its GPX block carries no `<ele>` element (it is
identical to the block of the same point with no altitude), ingesting
it changes neither elevation gain nor max altitude, a later point
gains nothing against it, and the ingestion of a zero-altitude fix and
of the corresponding no-altitude fix agree on every metric and on the
exported GPX text. -/
theorem zero_altitude_indistinguishable_from_absent
    (s : AppState) (pos : GeoPosition) (p : Point)
    (hp : p.alt = some 0) (hpos : pos.altitude = some 0)
    (hactive : s.status = Status.active) :
    trkptStr p = trkptStr { p with alt := Option.none } ∧
    (step s (Event.gpsFix pos)).elevationGain = s.elevationGain ∧
    (step s (Event.gpsFix pos)).maxAltitude = s.maxAltitude ∧
    (∀ pos' : GeoPosition,
      (step (step s (Event.gpsFix pos)) (Event.gpsFix pos')).elevationGain =
        (step s (Event.gpsFix pos)).elevationGain) ∧
    (step s (Event.gpsFix pos)).distance =
      (step s (Event.gpsFix { pos with altitude := Option.none })).distance ∧
    (step s (Event.gpsFix pos)).elevationGain =
      (step s (Event.gpsFix { pos with altitude := Option.none })).elevationGain ∧
    (step s (Event.gpsFix pos)).maxAltitude =
      (step s (Event.gpsFix { pos with altitude := Option.none })).maxAltitude ∧
    (step s (Event.gpsFix pos)).currentSpeed =
      (step s (Event.gpsFix { pos with altitude := Option.none })).currentSpeed ∧
    (step s (Event.gpsFix pos)).gpsSignal =
      (step s (Event.gpsFix { pos with altitude := Option.none })).gpsSignal ∧
    (step s (Event.gpsFix pos)).elapsedTime =
      (step s (Event.gpsFix { pos with altitude := Option.none })).elapsedTime ∧
    (step s (Event.gpsFix pos)).avgSpeed =
      (step s (Event.gpsFix { pos with altitude := Option.none })).avgSpeed ∧
    generateGPX (step s (Event.gpsFix pos)).points =
      generateGPX (step s (Event.gpsFix { pos with altitude := Option.none })).points := by
  have hposf : truthy pos.altitude = false := by rw [hpos]; decide
  have hpf : truthy p.alt = false := by rw [hp]; decide
  have hposnf : truthy ({ pos with altitude := Option.none } : GeoPosition).altitude = false := rfl
  have hstep : step s (Event.gpsFix pos) = recomputeAvgSpeed (ingest s pos) := by
    simp [step, hactive]
  have hstepN : step s (Event.gpsFix { pos with altitude := Option.none }) =
      recomputeAvgSpeed (ingest s { pos with altitude := Option.none }) := by
    simp [step, hactive]
  have hdist : (ingest s pos).distance =
      (ingest s { pos with altitude := Option.none }).distance := by
    rw [ingest_distance, ingest_distance]
    unfold tailDistance
    cases s.points.getLast? <;> rfl
  have hgainZ : (ingest s pos).elevationGain = s.elevationGain :=
    ingest_elevationGain_of_falsy s pos hposf
  have hgainN : (ingest s { pos with altitude := Option.none }).elevationGain =
      s.elevationGain :=
    ingest_elevationGain_of_falsy s _ hposnf
  have hmaxZ : (ingest s pos).maxAltitude = s.maxAltitude :=
    ingest_maxAltitude_of_falsy s pos hposf
  have hmaxN : (ingest s { pos with altitude := Option.none }).maxAltitude =
      s.maxAltitude :=
    ingest_maxAltitude_of_falsy s _ hposnf
  have htrk : trkptStr (mkPoint pos) =
      trkptStr (mkPoint { pos with altitude := Option.none }) := by
    rw [trkptStr_of_falsy (mkPoint pos) (by rw [show (mkPoint pos).alt = pos.altitude from rfl, hpos]; decide),
      trkptStr_of_falsy (mkPoint { pos with altitude := Option.none }) rfl]
    rfl
  refine ⟨?_, ?_, ?_, ?_, ?_, ?_, ?_, ?_, ?_, ?_, ?_, ?_⟩
  · rw [trkptStr_of_falsy p hpf, trkptStr_of_falsy { p with alt := Option.none } rfl]
  · rw [hstep, recomputeAvgSpeed_elevationGain]
    exact hgainZ
  · rw [hstep, recomputeAvgSpeed_maxAltitude]
    exact hmaxZ
  · intro pos'
    rw [hstep]
    have hact2 : (recomputeAvgSpeed (ingest s pos)).status = Status.active := by
      rw [recomputeAvgSpeed_status, ingest_status, hactive]
    have hstep2 : step (recomputeAvgSpeed (ingest s pos)) (Event.gpsFix pos') =
        recomputeAvgSpeed (ingest (recomputeAvgSpeed (ingest s pos)) pos') := by
      simp [step, hact2]
    rw [hstep2, recomputeAvgSpeed_elevationGain, ingest_elevationGain]
    have hpts : (recomputeAvgSpeed (ingest s pos)).points = s.points ++ [mkPoint pos] := by
      rw [recomputeAvgSpeed_points, ingest_points]
    rw [hpts, List.getLast?_concat]
    dsimp only
    have hma : truthy (mkPoint pos).alt = false := by
      rw [show (mkPoint pos).alt = pos.altitude from rfl, hpos]; decide
    simp [hma]
  · rw [hstep, hstepN, recomputeAvgSpeed_distance, recomputeAvgSpeed_distance, hdist]
  · rw [hstep, hstepN, recomputeAvgSpeed_elevationGain, recomputeAvgSpeed_elevationGain,
      hgainZ, hgainN]
  · rw [hstep, hstepN, recomputeAvgSpeed_maxAltitude, recomputeAvgSpeed_maxAltitude,
      hmaxZ, hmaxN]
  · rw [hstep, hstepN, recomputeAvgSpeed_currentSpeed, recomputeAvgSpeed_currentSpeed,
      ingest_currentSpeed, ingest_currentSpeed]
  · rw [hstep, hstepN, recomputeAvgSpeed_gpsSignal, recomputeAvgSpeed_gpsSignal,
      ingest_gpsSignal, ingest_gpsSignal]
  · rw [hstep, hstepN, recomputeAvgSpeed_elapsedTime, recomputeAvgSpeed_elapsedTime,
      ingest_elapsedTime, ingest_elapsedTime]
  · rw [hstep, hstepN]
    unfold recomputeAvgSpeed
    rw [ingest_elapsedTime, ingest_elapsedTime]
    split
    · dsimp only
      rw [hdist]
    · rw [ingest_avgSpeed, ingest_avgSpeed]
  · rw [hstep, hstepN, recomputeAvgSpeed_points, recomputeAvgSpeed_points,
      ingest_points, ingest_points]
    unfold generateGPX
    rw [List.map_append, List.map_append]
    simp [htrk]

/-- Witness for C10 at a concrete zero-altitude point and fix. -/
theorem zero_altitude_indistinguishable_witness :
    trkptStr c10wP = trkptStr { c10wP with alt := Option.none } ∧
    (step c10wState (Event.gpsFix c10wPos)).elevationGain =
      c10wState.elevationGain ∧
    (step c10wState (Event.gpsFix c10wPos)).maxAltitude =
      c10wState.maxAltitude := by
  obtain ⟨h1, h2, h3, _⟩ :=
    zero_altitude_indistinguishable_from_absent c10wState c10wPos c10wP rfl rfl rfl
  exact ⟨h1, h2, h3⟩

lemma hasPairLtE_cons_cons (u v : Char) (r : List Char) :
    hasPairLtE (u :: v :: r) =
      ((decide (u = '<') && decide (v = 'e')) || hasPairLtE (v :: r)) := by
  rw [hasPairLtE]

lemma hasPairLtE_nil : hasPairLtE [] = false := by
  rw [hasPairLtE]
  simp

lemma hasPairLtE_singleton (c : Char) : hasPairLtE [c] = false := by
  rw [hasPairLtE]
  simp

lemma hasPairLtE_cons_of (a : Char) (l : List Char) (h : hasPairLtE l = true) :
    hasPairLtE (a :: l) = true := by
  cases l with
  | nil => rw [hasPairLtE_nil] at h; exact absurd h (by decide)
  | cons y l' =>
    rw [hasPairLtE_cons_cons, h]
    simp

lemma hasPairLtE_append_right (s l : List Char) (h : hasPairLtE l = true) :
    hasPairLtE (s ++ l) = true := by
  induction s with
  | nil => simpa
  | cons a s ih =>
    rw [List.cons_append]
    exact hasPairLtE_cons_of a _ ih

lemma containsSeq_hasPairLtE (l : List Char) (h : containsSeq eleTag l) :
    hasPairLtE l = true := by
  obtain ⟨s, t, rfl⟩ := h
  apply hasPairLtE_append_right
  rw [show eleTag ++ t = '<' :: 'e' :: ('l' :: 'e' :: '>' :: t) from rfl,
    hasPairLtE_cons_cons]
  simp

lemma hasPairLtE_append_false (b : List Char) (hb : hasPairLtE b = false) :
    ∀ a : List Char, hasPairLtE a = false →
      (a.getLast? ≠ some '<' ∨ b.head? ≠ some 'e') →
      hasPairLtE (a ++ b) = false := by
  intro a
  induction a with
  | nil => intro _ _; simpa using hb
  | cons x a ih =>
    intro ha hbound
    cases a with
    | nil =>
      cases b with
      | nil => rw [show ([x] ++ ([] : List Char)) = [x] from rfl, hasPairLtE_singleton]
      | cons y b' =>
        have hxy : ¬(x = '<') ∨ ¬(y = 'e') := by
          rcases hbound with h | h
          · exact Or.inl fun hx => h (by simp [hx])
          · exact Or.inr fun hy => h (by simp [hy])
        rw [show ([x] ++ y :: b') = x :: y :: b' from rfl, hasPairLtE_cons_cons]
        rcases hxy with h | h <;> simp [h, hb]
    | cons z a' =>
      have ha' : (decide (x = '<') && decide (z = 'e')) = false ∧
          hasPairLtE (z :: a') = false := by
        rw [hasPairLtE_cons_cons] at ha
        exact ⟨by rcases Bool.or_eq_false_iff.1 ha with ⟨h1, _⟩; exact h1,
          by rcases Bool.or_eq_false_iff.1 ha with ⟨_, h2⟩; exact h2⟩
      have hbound' : (z :: a').getLast? ≠ some '<' ∨ b.head? ≠ some 'e' := by
        rcases hbound with h | h
        · left; rwa [List.getLast?_cons_cons] at h
        · right; exact h
      have hrec := ih ha'.2 hbound'
      rw [show ((x :: z :: a') ++ b) = x :: z :: (a' ++ b) from rfl,
        hasPairLtE_cons_cons, show (z :: (a' ++ b)) = (z :: a') ++ b from rfl,
        hrec, ha'.1]
      rfl

lemma hasPairLtE_of_no_lt (l : List Char) (h : '<' ∉ l) : hasPairLtE l = false := by
  induction l with
  | nil => exact hasPairLtE_nil
  | cons x l ih =>
    cases l with
    | nil => exact hasPairLtE_singleton x
    | cons y l' =>
      have hx : ¬(x = '<') := fun hxx => h (by rw [← hxx]; exact List.mem_cons_self _ _)
      have h' : '<' ∉ y :: l' := fun hm => h (List.mem_cons_of_mem _ hm)
      rw [hasPairLtE_cons_cons, ih h']
      simp [hx]

lemma ne_getLast?_of_not_mem {c : Char} {l : List Char} (h : c ∉ l) :
    l.getLast? ≠ some c := by
  intro heq
  have hmem : c ∈ l.getLast? := Option.mem_def.2 heq
  obtain ⟨hne, hc⟩ := List.mem_getLast?_eq_getLast hmem
  exact h (hc ▸ List.getLast_mem hne)

lemma digitChar_ne_lt (d : ℕ) (hd : d < 10) : digitChar d ≠ '<' := by
  interval_cases d <;> decide

lemma natChars_all_digits : ∀ n : ℕ, ∀ c ∈ natChars n, ∃ d, d < 10 ∧ c = digitChar d := by
  intro n
  induction n using Nat.strong_induction_on with
  | _ n ih =>
    match n with
    | 0 => intro c hc; rw [natChars] at hc; exact absurd hc (List.not_mem_nil c)
    | m + 1 =>
      intro c hc
      rw [natChars] at hc
      rcases List.mem_append.1 hc with h | h
      · exact ih ((m + 1) / 10) (Nat.div_lt_self (Nat.succ_pos m) (by norm_num)) c h
      · rw [List.mem_singleton] at h
        exact ⟨(m + 1) % 10, Nat.mod_lt _ (by norm_num), h⟩

lemma lt_not_mem_natStr (n : ℕ) : '<' ∉ (natStr n).toList := by
  unfold natStr
  split
  · decide
  · intro hmem
    obtain ⟨d, hd, hc⟩ := natChars_all_digits n '<'
      (by rw [show (String.mk (natChars n)).toList = natChars n from rfl] at hmem; exact hmem)
    exact digitChar_ne_lt d hd hc.symm

lemma lt_not_mem_intStr (i : ℤ) : '<' ∉ (intStr i).toList := by
  unfold intStr
  split
  · intro hmem
    rw [show ("-" ++ natStr i.natAbs).toList = '-' :: (natStr i.natAbs).toList from
      congrArg String.data (rfl)] at hmem
    rcases List.mem_cons.1 hmem with h | h
    · exact absurd h (by decide)
    · exact lt_not_mem_natStr _ h
  · exact lt_not_mem_natStr _

lemma lt_not_mem_numStr (q : ℚ) : '<' ∉ (numStr q).toList := by
  unfold numStr
  split
  · exact lt_not_mem_intStr _
  · intro hmem
    rw [show (intStr q.num ++ "/" ++ natStr q.den).toList =
        (intStr q.num).toList ++ ('/' :: (natStr q.den).toList) from by
      simp [String.toList, String.data_append]] at hmem
    rcases List.mem_append.1 hmem with h | h
    · exact lt_not_mem_intStr _ h
    · rcases List.mem_cons.1 h with h' | h'
      · exact absurd h' (by decide)
      · exact lt_not_mem_natStr _ h'

lemma lt_not_mem_padZero (len : ℕ) (s : String) (hs : '<' ∉ s.toList) :
    '<' ∉ (padZero len s).toList := by
  unfold padZero
  intro hmem
  rw [show (String.mk (List.replicate (len - s.length) '0') ++ s).toList =
      List.replicate (len - s.length) '0' ++ s.toList from by
    simp [String.toList, String.data_append]] at hmem
  rcases List.mem_append.1 hmem with h | h
  · exact absurd (List.eq_of_mem_replicate h) (by decide)
  · exact hs h

lemma lt_not_mem_toISOString (t : ℤ) : '<' ∉ (toISOString t).toList := by
  unfold toISOString
  intro hmem
  simp only [show ∀ a b : String, (a ++ b).toList = a.toList ++ b.toList from
    fun a b => String.data_append a b, List.mem_append] at hmem
  rcases hmem with ((((((((((((h | h) | h) | h) | h) | h) | h) | h) | h) | h) | h) | h) | h) | h
  · exact lt_not_mem_padZero _ _ (lt_not_mem_intStr _) h
  · exact absurd h (by decide)
  · exact lt_not_mem_padZero _ _ (lt_not_mem_intStr _) h
  · exact absurd h (by decide)
  · exact lt_not_mem_padZero _ _ (lt_not_mem_intStr _) h
  · exact absurd h (by decide)
  · exact lt_not_mem_padZero _ _ (lt_not_mem_natStr _) h
  · exact absurd h (by decide)
  · exact lt_not_mem_padZero _ _ (lt_not_mem_natStr _) h
  · exact absurd h (by decide)
  · exact lt_not_mem_padZero _ _ (lt_not_mem_natStr _) h
  · exact absurd h (by decide)
  · exact lt_not_mem_padZero _ _ (lt_not_mem_natStr _) h
  · exact absurd h (by decide)

/-- The GPX block of a point with falsy altitude contains no position
at which an `<e` pair (hence no `<ele>` tag) starts. -/
lemma trkptStr_no_pairLtE (p : Point) (hp : truthy p.alt = false) :
    hasPairLtE (trkptStr p).toList = false := by
  rw [trkptStr_of_falsy p hp]
  rw [show (("      <trkpt lat=\"" ++ numStr p.lat ++ "\" lon=\"" ++ numStr p.lng ++
      "\">\n        <time>" ++ toISOString p.timestamp ++
      "</time>\n      </trkpt>\n" : String)).toList =
      ("      <trkpt lat=\"" : String).toList ++ ((numStr p.lat).toList ++
        (("\" lon=\"" : String).toList ++ ((numStr p.lng).toList ++
          (("\">\n        <time>" : String).toList ++ ((toISOString p.timestamp).toList ++
            ("</time>\n      </trkpt>\n" : String).toList))))) from by
    simp [String.toList, String.data_append, List.append_assoc]]
  refine hasPairLtE_append_false _ ?_ _ (by decide) (Or.inl (by decide))
  refine hasPairLtE_append_false _ ?_ _
    (hasPairLtE_of_no_lt _ (lt_not_mem_numStr _))
    (Or.inl (ne_getLast?_of_not_mem (lt_not_mem_numStr _)))
  refine hasPairLtE_append_false _ ?_ _ (by decide) (Or.inl (by decide))
  refine hasPairLtE_append_false _ ?_ _
    (hasPairLtE_of_no_lt _ (lt_not_mem_numStr _))
    (Or.inl (ne_getLast?_of_not_mem (lt_not_mem_numStr _)))
  refine hasPairLtE_append_false _ ?_ _ (by decide) (Or.inl (by decide))
  exact hasPairLtE_append_false _ (by decide) _
    (hasPairLtE_of_no_lt _ (lt_not_mem_toISOString _))
    (Or.inl (ne_getLast?_of_not_mem (lt_not_mem_toISOString _)))

/-- **C7.** Exporting any sequence containing a point with no altitude
still emits that point's `<trkpt>` element with its latitude,
longitude and ISO-8601 `<time>`, but omits the `<ele>` element for
that point (its block contains no occurrence of `<ele>`); points whose
altitude is known still get their `<ele>` element. -/
theorem export_omits_ele_for_missing_altitude (ps : List Point) (p : Point)
    (hmem : p ∈ ps) (halt : p.alt = Option.none) :
    generateGPX ps = gpxHeader ++ String.join (ps.map trkptStr) ++ gpxFooter ∧
    trkptStr p =
      "      <trkpt lat=\"" ++ numStr p.lat ++ "\" lon=\"" ++ numStr p.lng ++
        "\">\n        <time>" ++ toISOString p.timestamp ++
        "</time>\n      </trkpt>\n" ∧
    ¬ containsSeq eleTag (trkptStr p).toList ∧
    (∀ q : Point, q ∈ ps → truthy q.alt = true →
      trkptStr q =
        "      <trkpt lat=\"" ++ numStr q.lat ++ "\" lon=\"" ++ numStr q.lng ++
          "\">\n" ++ ("        <ele>" ++ numStr (altVal q.alt) ++ "</ele>\n") ++
          "        <time>" ++ toISOString q.timestamp ++ "</time>\n" ++
          "      </trkpt>\n") := by
  have hf : truthy p.alt = false := by rw [halt]; rfl
  refine ⟨rfl, trkptStr_of_falsy p hf, ?_, fun q _ hqt => trkptStr_of_truthy q hqt⟩
  intro hcon
  have h1 := containsSeq_hasPairLtE _ hcon
  rw [trkptStr_no_pairLtE p hf] at h1
  exact Bool.false_ne_true h1

/-- Witness for C7 at a concrete two-point track whose first point
lacks altitude. -/
theorem export_omits_ele_witness :
    trkptStr c7wNone =
      "      <trkpt lat=\"" ++ numStr c7wNone.lat ++ "\" lon=\"" ++
        numStr c7wNone.lng ++ "\">\n        <time>" ++
        toISOString c7wNone.timestamp ++ "</time>\n      </trkpt>\n" ∧
    ¬ containsSeq eleTag (trkptStr c7wNone).toList := by
  obtain ⟨_, h2, h3, _⟩ :=
    export_omits_ele_for_missing_altitude c7wList c7wNone
      (by simp [c7wList]) rfl
  exact ⟨h2, h3⟩

set_option maxRecDepth 10000 in
/-- **C8.** Exporting the empty point sequence yields exactly the
well-formed GPX 1.1 document with one `<trk>`, one `<trkseg>` and zero
`<trkpt>` elements. -/
theorem export_empty_sequence_gpx :
    generateGPX [] =
      "<?xml version=\"1.0\" encoding=\"UTF-8\"?>\n<gpx version=\"1.1\" creator=\"Web Wear OS Hiking App\">\n  <trk>\n    <name>Hiking Session</name>\n    <trkseg>\n    </trkseg>\n  </trk>\n</gpx>" ∧
    countSub ("<trkpt".toList) (generateGPX []).toList = 0 ∧
    countSub ("<trk>".toList) (generateGPX []).toList = 1 ∧
    countSub ("</trk>".toList) (generateGPX []).toList = 1 ∧
    countSub ("<trkseg>".toList) (generateGPX []).toList = 1 ∧
    countSub ("</trkseg>".toList) (generateGPX []).toList = 1 ∧
    countSub ("<gpx".toList) (generateGPX []).toList = 1 ∧
    countSub ("</gpx>".toList) (generateGPX []).toList = 1 := by
  exact ⟨by decide, by decide, by decide, by decide, by decide, by decide,
    by decide, by decide⟩

/-- Counterexample to C6 as stated: from the reachable `paused` state
no event leads to `active` — there is no resume transition; the only
event that changes the status at all is stop, which goes to `summary`. -/
theorem resume_counterexample :
    (run c6cEvents).status = Status.paused ∧
    (step (run c6cEvents) Event.pressStart).status = Status.paused ∧
    (step (run c6cEvents) Event.pressPause).status = Status.paused ∧
    (step (run c6cEvents) Event.pressReset).status = Status.paused ∧
    (step (run c6cEvents) Event.tick).status = Status.paused ∧
    (step (run c6cEvents) (Event.gpsFix c6cPos)).status = Status.paused ∧
    (step (run c6cEvents) Event.gpsError).status = Status.paused ∧
    (step (run c6cEvents) Event.pressStop).status = Status.summary := by
  refine ⟨by decide, by decide, by decide, by decide, by decide, by decide,
    by decide, by decide⟩

end HikingApp
